import Mathlib

/-!
Verification development for the read-you repository: a shallow embedding of
`src/readme_generator.py` and `src/main.py` over lists of path strings, with
theorems about directory analysis, language selection, file ranking, content
collection, README generation and the command-line entry point.

Modelling conventions:
* a scanned directory is a root path plus the list of relative paths of the
  entries that `Path.rglob` would return, in discovery order;
* the file system's read behaviour is a function `String → Except String String`
  (error = the exception message of a failed `open`/`read`);
* the generation backend (`client.chat.completions.create`) is a function from
  the request record to the returned message text;
* Python's float literal `0.3` in `count >= max_count * 0.3` is embedded as the
  exact rational comparison `3 * max_count ≤ 10 * count`, which agrees with the
  double-precision computation for all realistic (< 2^50) file counts;
* Python exceptions are the inductive `PyError`.
-/

namespace ReadYou

/-- Single-quote character, used when assembling Python-style message text. -/
def sq : String := String.singleton (Char.ofNat 39)

/-- Does `needle` occur as a contiguous sublist of the second list? -/
def subList (needle : List Char) : List Char → Bool
  | [] => needle.isEmpty
  | c :: rest => needle.isPrefixOf (c :: rest) || subList needle rest

/-- Boolean substring test on strings: Python's `needle in hay`. -/
def substrOf (needle hay : String) : Bool :=
  subList needle.toList hay.toList

/-- Base name of a path: the component after the last slash, Python's `Path.name`. -/
def baseName (p : String) : String :=
  String.mk ((p.toList.reverse.takeWhile (fun c => c != ('/' : Char))).reverse)

/-- Full path of an entry: the scanned root joined with the relative path,
Python's `str(file)` for a file yielded by `directory.rglob`. -/
def fullPath (root rel : String) : String := root ++ "/" ++ rel

/-- The ignored directory name fragments of `analyze_directory` (line 136 of
`readme_generator.py`), including the literal string `*.egg-info`. -/
def ignore_dirs : List String :=
  [".git", "node_modules", ".venv", "venv", "__pycache__", "build", "dist", "*.egg-info"]

/-- The per-extension entry-point name catalog of `analyze_directory`. -/
def important_patterns : List (String × List String) :=
  [(".py", ["main.py", "app.py", "index.py", "setup.py"]),
   (".js", ["index.js", "main.js", "app.js", "server.js"]),
   (".ts", ["index.ts", "main.ts", "app.ts", "server.ts"]),
   (".go", ["main.go", "app.go", "server.go"]),
   (".rs", ["main.rs", "lib.rs"]),
   (".java", ["Main.java", "App.java", "Application.java"]),
   (".rb", ["main.rb", "app.rb", "application.rb"]),
   (".php", ["index.php", "app.php"]),
   (".cs", ["Program.cs", "Startup.cs"])]

/-- The extension-to-display-name catalog of `_detect_project_type`. -/
def type_mapping : List (String × String) :=
  [(".py", "Python"), (".js", "JavaScript"), (".ts", "TypeScript"), (".go", "Go"),
   (".rs", "Rust"), (".java", "Java"), (".rb", "Ruby"), (".php", "PHP"), (".cs", "C#")]

/-- The catalog extensions in iteration order (`important_patterns.keys()`). -/
def catalogExts : List String := important_patterns.map (fun p => p.1)

/-- Python `any(ignore_dir in str(file) for ignore_dir in ignore_dirs)`. -/
def isIgnored (full : String) : Bool :=
  ignore_dirs.any (fun d => substrOf d full)

/-- `directory.rglob(f'*{ext}')`: the entries whose name ends with `ext`,
in discovery order. -/
def globExt (files : List String) (ext : String) : List String :=
  files.filter (fun f => ext.toList.isSuffixOf f.toList)

/-- The `valid_files` loop of the first pass: glob matches whose full path
contains no ignored fragment. -/
def validFilesFor (root : String) (files : List String) (ext : String) : List String :=
  (globExt files ext).filter (fun f => !(isIgnored (fullPath root f)))

/-- `language_counts`: extension to number of valid files, keeping only
extensions with at least one valid file, in catalog order. -/
def language_counts (root : String) (files : List String) : List (String × Nat) :=
  (catalogExts.map (fun ext => (ext, (validFilesFor root files ext).length))).filter
    (fun p => p.2 != 0)

/-- `all_files`: the valid files of every extension, concatenated in catalog
order. -/
def all_files (root : String) (files : List String) : List String :=
  catalogExts.flatMap (fun ext => validFilesFor root files ext)

/-- `max_count = max(language_counts.values())` (0 when empty; the source only
evaluates it on a non-empty mapping). -/
def maxCount (root : String) (files : List String) : Nat :=
  ((language_counts root files).map (fun p => p.2)).foldl Nat.max 0

/-- `primary_languages`: extensions whose count passes the 30%-of-max
threshold `count >= max_count * 0.3` (exact rational form of the float test). -/
def primary_languages (root : String) (files : List String) : List String :=
  ((language_counts root files).filter
    (fun p => decide (3 * maxCount root files ≤ 10 * p.2))).map (fun p => p.1)

/-- Python `'src/' in str(file) or 'lib/' in str(file) or 'app/' in str(file)`. -/
def srcLike (full : String) : Bool :=
  substrOf "src/" full || substrOf "lib/" full || substrOf "app/" full

/-- Python `ext in str(file)`: the extension string occurs anywhere in the
full path. -/
def extInPath (root ext f : String) : Bool := substrOf ext (fullPath root f)

/-- `important_patterns[ext]`. -/
def patternsFor (ext : String) : List String :=
  (List.lookup ext important_patterns).getD []

/-- One step of the first-priority loop: a file whose base name equals the
pattern and whose path contains the extension is inserted at the front when
its path looks like a source directory, appended at the end otherwise. -/
def tier1Step (root ext pat : String) (acc : List String) (f : String) : List String :=
  if baseName f == pat && extInPath root ext f then
    (if srcLike (fullPath root f) then f :: acc else acc ++ [f])
  else acc

/-- The whole first-priority pass over patterns and `all_files`. -/
def tier1 (root : String) (allF : List String) (ext : String) : List String :=
  (patternsFor ext).foldl (fun acc pat => allF.foldl (tier1Step root ext pat) acc) []

/-- The second- and third-priority passes share this shape: append each file
satisfying `cond` that is not yet in the accumulated list. -/
def laterTier (cond : String → Bool) (acc0 allF : List String) : List String :=
  allF.foldl (fun acc f => if cond f && !(decide (f ∈ acc)) then acc ++ [f] else acc) acc0

/-- `files_by_importance` for one extension, truncated to the top 5. -/
def rankForExt (root : String) (allF : List String) (ext : String) : List String :=
  let t1 := tier1 root allF ext
  let t2 := laterTier (fun f => extInPath root ext f && srcLike (fullPath root f)) t1 allF
  let t3 := laterTier (fun f => extInPath root ext f) t2 allF
  t3.take 5

/-- The per-file read loop: successful reads become header-prefixed entries
(first component); failed reads become printed error messages (second
component) and the file is skipped. -/
def collectContents (readF : String → Except String String) (root : String) :
    List String → List String × List String
  | [] => ([], [])
  | f :: rest =>
      let r := collectContents readF root rest
      match readF (fullPath root f) with
      | Except.ok content => (("# File: " ++ f ++ "\n" ++ content) :: r.1, r.2)
      | Except.error e => (r.1, ("Error reading " ++ fullPath root f ++ ": " ++ e) :: r.2)

/-- Python exception values raised by the embedded code. -/
inductive PyError where
  | typeError (msg : String)
  | valueError (msg : String)
  | fileNotFoundError (msg : String)
  | nameError (msg : String)
deriving DecidableEq, Repr

/-- `ReadmeGenerator.analyze_directory`: raises when no recognized source file
survives the ignore filter, otherwise ranks and reads the files of every
primary extension. -/
def analyze_directory (readF : String → Except String String) (root : String)
    (files : List String) : Except PyError (List (String × List String)) :=
  if (language_counts root files).isEmpty then
    Except.error (PyError.valueError "No recognized source code files found in the repository")
  else
    Except.ok ((primary_languages root files).filterMap (fun ext =>
      let ranked := rankForExt root (all_files root files) ext
      if ranked.isEmpty then none
      else some (ext, (collectContents readF root ranked).1)))

/-- `ReadmeGenerator._detect_project_type`: the display name of the first
extension with the most included files. -/
def detect_project_type (fc : List (String × List String)) : String :=
  match fc.map (fun p => (p.1, p.2.length)) with
  | [] => "Unknown"
  | c :: rest =>
      (List.lookup (rest.foldl (fun best p => if best.2 < p.2 then p else best) c).1
        type_mapping).getD "Unknown"

/-- The generator object after successful construction: the API key and the
model name chosen in `_init_openai`. -/
structure Generator where
  api_key : String
  model : String
deriving DecidableEq, Repr

/-- The request handed to `client.chat.completions.create`. -/
structure ChatRequest where
  model : String
  systemMsg : String
  userMsg : String
  temperature : ℚ
  max_tokens : Nat

/-- The fixed attribution footer of `generate_readme`. -/
def footer : String :=
  "\n\n---\n*This README was automatically generated using [read-you](https://github.com/yourusername/read-you)*"

/-- Python `repr` of a list of strings, as produced by
`f"{list(file_contents.keys())}"`. -/
def pyListRepr (xs : List String) : String :=
  "[" ++ String.intercalate ", " (xs.map (fun s => sq ++ s ++ sq)) ++ "]"

/-- The detailed (verbose) instruction template of `generate_readme`. -/
def verbosePrompt (project_type : String) (keys : List String) : String :=
  "You are analyzing a " ++ project_type ++
  " project's source code to generate a README.md file.\n            Focus on the most important implementation files, which have been automatically identified and prioritized.\n            \n            Key points to analyze:\n            1. Look for main entry points and core functionality\n            2. Identify the project's primary features and purpose\n            3. Note any command-line arguments, API endpoints, or configuration options\n            4. Identify required dependencies from imports/package files\n            \n            Files found: " ++
  pyListRepr keys ++
  "\n            \n            Please include:\n            1. Project Title (based on the main functionality)\n            2. Clear description of what the code actually does\n            3. Installation Instructions (specific to " ++
  project_type ++
  ")\n            4. Usage Examples (based on actual implementation)\n            5. Project Structure (focusing on key files)\n            6. Dependencies (based on actual imports/requirements)\n            7. Contributing Guidelines\n            8. License Information (if found)\n            \n            Do not add any footer - it will be added automatically.\n            "

/-- The brief (non-verbose) instruction template of `generate_readme`. -/
def briefPrompt (project_type : String) (keys : List String) : String :=
  "You are analyzing a " ++ project_type ++
  " project's source code to generate a concise README.md.\n            Focus on the most important implementation files that have been automatically identified.\n            \n            Files found: " ++
  pyListRepr keys ++
  "\n            \n            Create a brief README focusing on:\n            1. What the code actually does (based on the implementation)\n            2. How to use it (based on actual code patterns found)\n            3. Basic requirements (specific to " ++
  project_type ++
  ")\n            \n            Be direct and accurate. Only describe functionality that exists in the code.\n            Do not add any footer - it will be added automatically.\n            "

/-- The serialized per-extension code section appended to the prompt. -/
def codeSection (fc : List (String × List String)) : String :=
  String.join (fc.map (fun p =>
    if p.2.isEmpty then ""
    else "\n" ++ p.1 ++ " files:\n" ++ String.join (p.2.map (fun c => c ++ "\n"))))

/-- The complete user message of the generation request. -/
def buildPrompt (project_type : String) (fc : List (String × List String))
    (verbose : Bool) : String :=
  (if verbose then verbosePrompt project_type (fc.map (fun p => p.1))
   else briefPrompt project_type (fc.map (fun p => p.1))) ++
  "\nHere's the actual code to analyze:\n" ++ codeSection fc

/-- The system message of the generation request. -/
def systemMessage (project_type : String) : String :=
  "You are a technical documentation expert specializing in " ++ project_type ++
  ". Generate a README.md based ONLY on the actual code provided, not assumptions. Focus on the main implementation files and ignore configuration or build files."

/-- `ReadmeGenerator.generate_readme`: analyze, detect the project type, call
the backend with temperature 0.7 and the mode-dependent token ceiling, append
the footer. -/
def generate_readme (backend : ChatRequest → String) (g : Generator)
    (readF : String → Except String String) (root : String) (files : List String)
    (verbose : Bool) : Except PyError String :=
  match analyze_directory readF root files with
  | Except.error e => Except.error e
  | Except.ok fc =>
      let project_type := detect_project_type fc
      Except.ok (backend
        { model := g.model,
          systemMsg := systemMessage project_type,
          userMsg := buildPrompt project_type fc verbose,
          temperature := 7/10,
          max_tokens := if verbose then 2000 else 1000 } ++ footer)

/-- The `openai` section of a parsed YAML configuration; `none` models an
absent key. -/
structure OpenAISection where
  api_key : Option String
  model : Option String
deriving DecidableEq, Repr

/-- A parsed configuration mapping. -/
structure Conf where
  openai : OpenAISection
deriving DecidableEq, Repr

/-- `_merge_configs`: values present in the override (secrets) win, the rest
is kept from the base. -/
def mergeConfigs (base override : Conf) : Conf :=
  { openai :=
      { api_key := match override.openai.api_key with
          | some v => some v
          | none => base.openai.api_key,
        model := match override.openai.model with
          | some v => some v
          | none => base.openai.model } }

/-- The observable state of one candidate configuration directory. -/
structure ConfigDirState where
  path : String
  exampleExists : Bool
  exampleConf : Conf
  secretsExists : Bool
  secretsParse : Except String Conf
deriving Repr

/-- The configuration environment seen by the constructor: the three candidate
directories of `_load_config` plus the packaged default configs. -/
structure ConfigEnv where
  dirs : Fin 3 → ConfigDirState
  packageConfigExists : Bool
  packageExampleConf : Conf

/-- `ReadmeGenerator._read_configs`. When `example.yaml` is missing, the
handler at line 88 raises a `FileNotFoundError` whose f-string mentions
`possible_config_dirs`, a name that is not in scope there, so the branch
actually raises `NameError`. -/
def read_configs (d : ConfigDirState) : Except PyError Conf :=
  if !d.exampleExists then
    Except.error (PyError.nameError
      ("name " ++ sq ++ "possible_config_dirs" ++ sq ++ " is not defined"))
  else if !d.secretsExists then
    Except.error (PyError.valueError
      ("No secrets.yaml found. Create " ++ d.path ++
        "/secrets.yaml with your OpenAI API key"))
  else
    match d.secretsParse with
    | Except.error e =>
        Except.error (PyError.valueError ("Error reading secrets.yaml: " ++ e))
    | Except.ok secrets => Except.ok (mergeConfigs d.exampleConf secrets)

/-- The user config directory after `_copy_default_configs`: `example.yaml`
exists there exactly when the packaged config does (only the secrets template
is copied, never `secrets.yaml` itself). -/
def postCopyDir (env : ConfigEnv) : ConfigDirState :=
  { path := (env.dirs 1).path,
    exampleExists := env.packageConfigExists,
    exampleConf := env.packageExampleConf,
    secretsExists := (env.dirs 1).secretsExists,
    secretsParse := (env.dirs 1).secretsParse }

/-- `ReadmeGenerator._load_config`: pick the first candidate directory holding
`example.yaml`, otherwise copy defaults into the user directory and read from
there. -/
def load_config (env : ConfigEnv) : Except PyError Conf :=
  if (env.dirs 0).exampleExists then read_configs (env.dirs 0)
  else if (env.dirs 1).exampleExists then read_configs (env.dirs 1)
  else if (env.dirs 2).exampleExists then read_configs (env.dirs 2)
  else read_configs (postCopyDir env)

/-- The placeholder API key values rejected by `_init_openai`. -/
def placeholderKeys : List String :=
  ["YOUR-API-KEY-GOES-IN-SECRETS.YAML", "your-actual-api-key-here"]

/-- `ReadmeGenerator._init_openai`: reject an absent, empty or placeholder
API key, pick the configured model (default `gpt-4-0125-preview`). -/
def init_openai (c : Conf) : Except PyError Generator :=
  match c.openai.api_key with
  | none =>
      Except.error (PyError.valueError "Invalid API key. Add your OpenAI key to secrets.yaml")
  | some k =>
      if k == "" || placeholderKeys.contains k then
        Except.error (PyError.valueError "Invalid API key. Add your OpenAI key to secrets.yaml")
      else
        Except.ok { api_key := k, model := c.openai.model.getD "gpt-4-0125-preview" }

/-- `ReadmeGenerator.__init__`: load the configuration, then initialize the
client; both steps happen before any directory scanning. -/
def constructGenerator (env : ConfigEnv) : Except PyError Generator :=
  match load_config env with
  | Except.error e => Except.error e
  | Except.ok c => init_openai c

/-- The parsed command line of `main.py`. -/
structure Args where
  repo_path : String
  model : Option String
  verbose : Bool
  dry_run : Bool

/-- The keyword parameters accepted by `generate_readme` (its signature is
`generate_readme(self, repo_path, verbose=False)`). -/
def acceptedKwargs : List String := ["repo_path", "verbose"]

/-- Python `str(e)` for the embedded exception values. -/
def errMsg : PyError → String
  | PyError.typeError m => m
  | PyError.valueError m => m
  | PyError.fileNotFoundError m => m
  | PyError.nameError m => m

/-- The call `generator.generate_readme(args.repo_path, model=args.model,
verbose=args.verbose)` from `main.py`: a keyword argument that is not a
parameter of the callee raises `TypeError` before the body runs. -/
def call_generate_readme (backend : ChatRequest → String) (g : Generator)
    (readF : String → Except String String) (files : List String) (args : Args) :
    Except PyError String :=
  match (["model", "verbose"].filter (fun k => !(acceptedKwargs.contains k))) with
  | [] => generate_readme backend g readF args.repo_path files args.verbose
  | k :: _ =>
      Except.error (PyError.typeError
        ("generate_readme() got an unexpected keyword argument " ++ sq ++ k ++ sq))

/-- `main` from `main.py`: construct the generator, call `generate_readme`,
write or print the result; any raised error is printed as `Error: ...` and the
process returns 1, otherwise 0. Returns the exit code and the printed lines
(the README write is modelled as succeeding). -/
def pyMain (env : ConfigEnv) (backend : ChatRequest → String)
    (readF : String → Except String String) (files : List String) (args : Args) :
    Nat × List String :=
  match constructGenerator env with
  | Except.error e => (1, ["Error: " ++ errMsg e])
  | Except.ok g =>
      match call_generate_readme backend g readF files args with
      | Except.error e => (1, ["Error: " ++ errMsg e])
      | Except.ok content =>
          if args.dry_run then (0, [content])
          else (0, ["README generated at: " ++ args.repo_path ++ "/README.md"])

/-- Entry-point matches of one extension: for each pattern in catalog order,
the files of `allF` whose base name equals the pattern and whose path contains
the extension, in discovery order. -/
def entryMatches (root : String) (allF : List String) (ext : String) : List String :=
  (patternsFor ext).flatMap (fun pat =>
    allF.filter (fun f => baseName f == pat && extInPath root ext f))

/-- First segment of the ranked order: entry-point matches under a source
directory, most recently matched first. -/
def tierA (root : String) (allF : List String) (ext : String) : List String :=
  ((entryMatches root allF ext).filter (fun f => srcLike (fullPath root f))).reverse

/-- Second segment: entry-point matches not under a source directory, in
match order. -/
def tierB (root : String) (allF : List String) (ext : String) : List String :=
  (entryMatches root allF ext).filter (fun f => !(srcLike (fullPath root f)))

/-- Third segment: the remaining source-directory files of the extension, in
discovery order. -/
def tierC (root : String) (allF : List String) (ext : String) : List String :=
  allF.filter (fun f => (extInPath root ext f && srcLike (fullPath root f)) &&
    !(decide (f ∈ tierA root allF ext ++ tierB root allF ext)))

/-- Fourth segment: every remaining file whose path contains the extension, in
discovery order. -/
def tierD (root : String) (allF : List String) (ext : String) : List String :=
  allF.filter (fun f => extInPath root ext f &&
    !(decide (f ∈ (tierA root allF ext ++ tierB root allF ext) ++ tierC root allF ext)))

/-- The inner loop of the first-priority pass moves source-directory matches
of one pattern to the front (reversed) and appends the other matches. -/
theorem tier1_inner (root ext pat : String) (fs : List String) :
    ∀ acc : List String,
      fs.foldl (tier1Step root ext pat) acc =
        ((fs.filter (fun f => baseName f == pat && extInPath root ext f)).filter
          (fun f => srcLike (fullPath root f))).reverse
        ++ acc
        ++ ((fs.filter (fun f => baseName f == pat && extInPath root ext f)).filter
          (fun f => !(srcLike (fullPath root f)))) := by
  induction fs with
  | nil => intro acc; simp
  | cons f rest ih =>
      intro acc
      cases h1 : (baseName f == pat && extInPath root ext f) with
      | false =>
          simp [List.foldl_cons, tier1Step, h1, ih, List.filter_cons]
      | true =>
          cases h2 : srcLike (fullPath root f) with
          | false =>
              simp [List.foldl_cons, tier1Step, h1, h2, ih, List.filter_cons]
          | true =>
              simp [List.foldl_cons, tier1Step, h1, h2, ih, List.filter_cons]

/-- The whole first-priority pass produces the source entry points (reversed)
followed by the non-source entry points. -/
theorem tier1_eq (root : String) (allF : List String) (ext : String) :
    tier1 root allF ext = tierA root allF ext ++ tierB root allF ext := by
  have outer : ∀ (pats : List String) (acc : List String),
      pats.foldl (fun acc pat => allF.foldl (tier1Step root ext pat) acc) acc =
        (pats.flatMap (fun pat =>
          (allF.filter (fun f => baseName f == pat && extInPath root ext f)).filter
            (fun f => srcLike (fullPath root f)))).reverse
        ++ acc
        ++ pats.flatMap (fun pat =>
          (allF.filter (fun f => baseName f == pat && extInPath root ext f)).filter
            (fun f => !(srcLike (fullPath root f)))) := by
    intro pats
    induction pats with
    | nil => intro acc; simp
    | cons p ps ih =>
        intro acc
        simp only [List.foldl_cons, List.flatMap_cons]
        rw [ih, tier1_inner root ext p allF acc]
        simp [List.reverse_append, List.append_assoc]
  show (patternsFor ext).foldl _ [] = _
  rw [outer (patternsFor ext) []]
  simp [tierA, tierB, entryMatches, List.filter_flatMap]

/-- The second- and third-priority passes append exactly the files satisfying
the condition that are not already present, in discovery order (for a
duplicate-free discovery list). -/
theorem laterTier_eq (cond : String → Bool) :
    ∀ allF : List String, allF.Nodup → ∀ acc0 : List String,
      laterTier cond acc0 allF =
        acc0 ++ allF.filter (fun f => cond f && !(decide (f ∈ acc0))) := by
  intro allF
  induction allF with
  | nil => intro _ acc0; simp [laterTier]
  | cons f rest ih =>
      intro hnd acc0
      have hf : f ∉ rest := (List.nodup_cons.mp hnd).1
      have hrest : rest.Nodup := (List.nodup_cons.mp hnd).2
      cases hc : (cond f && !(decide (f ∈ acc0))) with
      | false =>
          have hstep : laterTier cond acc0 (f :: rest) = laterTier cond acc0 rest := by
            show laterTier cond
              (if cond f && !(decide (f ∈ acc0)) then acc0 ++ [f] else acc0) rest = _
            rw [hc]
            rfl
          rw [hstep, ih hrest acc0, List.filter_cons, hc]
          simp
      | true =>
          have hstep : laterTier cond acc0 (f :: rest) = laterTier cond (acc0 ++ [f]) rest := by
            show laterTier cond
              (if cond f && !(decide (f ∈ acc0)) then acc0 ++ [f] else acc0) rest = _
            rw [hc]
            rfl
          rw [hstep, ih hrest (acc0 ++ [f]), List.filter_cons, hc]
          have hcong : rest.filter (fun g => cond g && !(decide (g ∈ acc0 ++ [f]))) =
              rest.filter (fun g => cond g && !(decide (g ∈ acc0))) := by
            apply List.filter_congr
            intro g hg
            have hne : g ≠ f := fun hgf => hf (hgf ▸ hg)
            simp [List.mem_append, hne]
          rw [hcong]
          simp

/-- Elimination for a true boolean conjunction. -/
theorem band_elim {a b : Bool} (h : (a && b) = true) : a = true ∧ b = true := by
  simp at h
  exact h

/-- Every entry-point match has the extension somewhere in its full path. -/
theorem extInPath_of_mem_entryMatches {root ext g : String} {allF : List String}
    (hg : g ∈ entryMatches root allF ext) : extInPath root ext g = true := by
  simp only [entryMatches, List.mem_flatMap, List.mem_filter] at hg
  obtain ⟨pat, _, _, hcond⟩ := hg
  exact (band_elim hcond).2

/-- Every file placed by the first-priority pass has the extension somewhere
in its full path. -/
theorem mem_tier1 {root ext g : String} {allF : List String}
    (hg : g ∈ tier1 root allF ext) : extInPath root ext g = true := by
  rw [tier1_eq] at hg
  rcases List.mem_append.mp hg with h | h
  · exact extInPath_of_mem_entryMatches
      (List.mem_filter.mp (List.mem_reverse.mp h)).1
  · exact extInPath_of_mem_entryMatches (List.mem_filter.mp h).1

/-- A member of a later-tier pass was already present or satisfies the
pass condition. -/
theorem mem_laterTier {cond : String → Bool} :
    ∀ {allF acc0 : List String} {g : String},
      g ∈ laterTier cond acc0 allF → g ∈ acc0 ∨ cond g = true := by
  intro allF
  induction allF with
  | nil => intro acc0 g hg; exact Or.inl hg
  | cons f rest ih =>
      intro acc0 g hg
      have hg' : g ∈ laterTier cond
          (if cond f && !(decide (f ∈ acc0)) then acc0 ++ [f] else acc0) rest := hg
      rcases ih hg' with h | h
      · by_cases hc : (cond f && !(decide (f ∈ acc0))) = true
        · rw [if_pos hc] at h
          rcases List.mem_append.mp h with h2 | h2
          · exact Or.inl h2
          · have hgf : g = f := by simpa using h2
            exact Or.inr (hgf ▸ (band_elim hc).1)
        · rw [if_neg hc] at h
          exact Or.inl h
      · exact Or.inr h

/-- Every ranked file has the extension somewhere in its full path. -/
theorem mem_rankForExt {root ext g : String} {allF : List String}
    (hg : g ∈ rankForExt root allF ext) : extInPath root ext g = true := by
  have hg3 : g ∈ laterTier (fun f => extInPath root ext f)
      (laterTier (fun f => extInPath root ext f && srcLike (fullPath root f))
        (tier1 root allF ext) allF) allF :=
    List.take_subset 5 _ hg
  rcases mem_laterTier hg3 with h2 | h2
  · rcases mem_laterTier h2 with h1 | h1
    · exact mem_tier1 h1
    · exact (band_elim h1).1
  · exact h2

/-- Does reading this ranked file succeed? -/
def readsOk (readF : String → Except String String) (root f : String) : Bool :=
  match readF (fullPath root f) with
  | Except.ok _ => true
  | Except.error _ => false

/-- The text of a successful read (empty for a failed one). -/
def readContent (readF : String → Except String String) (root f : String) : String :=
  match readF (fullPath root f) with
  | Except.ok c => c
  | Except.error _ => ""

/-- The exception message of a failed read (empty for a successful one). -/
def readErr (readF : String → Except String String) (root f : String) : String :=
  match readF (fullPath root f) with
  | Except.ok _ => ""
  | Except.error e => e

/-- The read loop keeps exactly the readable files, in order, each stored as
its header-prefixed text, and reports one error message per unreadable file. -/
theorem collect_eq (readF : String → Except String String) (root : String) :
    ∀ l : List String,
      (collectContents readF root l).1 =
        (l.filter (readsOk readF root)).map
          (fun f => "# File: " ++ f ++ "\n" ++ readContent readF root f)
      ∧ (collectContents readF root l).2 =
        (l.filter (fun f => !(readsOk readF root f))).map
          (fun f => "Error reading " ++ fullPath root f ++ ": " ++ readErr readF root f) := by
  intro l
  induction l with
  | nil => exact ⟨rfl, rfl⟩
  | cons f rest ih =>
      cases hr : readF (fullPath root f) with
      | ok c =>
          constructor
          · simp [collectContents, hr, List.filter_cons, readsOk, readContent, ih.1]
          · simp [collectContents, hr, List.filter_cons, readsOk, ih.2]
      | error e =>
          constructor
          · simp [collectContents, hr, List.filter_cons, readsOk, ih.1]
          · simp [collectContents, hr, List.filter_cons, readsOk, readErr, ih.2]

/-- Inversion for a successful analysis: every returned group belongs to a
primary extension, its ranked list is non-empty, and its contents are the
collected reads of that ranked list. -/
theorem analyze_ok_inv {readF : String → Except String String} {root : String}
    {files : List String} {m : List (String × List String)}
    (h : analyze_directory readF root files = Except.ok m)
    {ext : String} {cs : List String} (hm : (ext, cs) ∈ m) :
    ext ∈ primary_languages root files ∧
    rankForExt root (all_files root files) ext ≠ [] ∧
    cs = (collectContents readF root (rankForExt root (all_files root files) ext)).1 := by
  by_cases hlc : (language_counts root files).isEmpty
  · rw [analyze_directory, if_pos hlc] at h
    exact absurd h (by simp)
  · rw [analyze_directory, if_neg hlc] at h
    have hml : m = (primary_languages root files).filterMap (fun ext =>
        let ranked := rankForExt root (all_files root files) ext
        if ranked.isEmpty then none
        else some (ext, (collectContents readF root ranked).1)) := (Except.ok.inj h).symm
    rw [hml] at hm
    obtain ⟨a, ha, hfa⟩ := List.mem_filterMap.mp hm
    have hfa' : (if (rankForExt root (all_files root files) a).isEmpty then none
        else some (a, (collectContents readF root
          (rankForExt root (all_files root files) a)).1)) = some (ext, cs) := hfa
    by_cases hr : (rankForExt root (all_files root files) a).isEmpty
    · rw [if_pos hr] at hfa'
      exact absurd hfa' (by simp)
    · rw [if_neg hr] at hfa'
      have hpair := Option.some.inj hfa'
      have hax : a = ext := congrArg Prod.fst hpair
      have hcs : cs = (collectContents readF root
          (rankForExt root (all_files root files) a)).1 :=
        (congrArg Prod.snd hpair).symm
      subst hax
      refine ⟨ha, ?_, hcs⟩
      intro hnil
      exact hr (by simp [hnil])

/-- The initial value is a lower bound of a maximum fold. -/
theorem foldl_max_le_init : ∀ (l : List Nat) (a : Nat), a ≤ l.foldl Nat.max a := by
  intro l
  induction l with
  | nil => intro a; exact Nat.le_refl a
  | cons x t ih => intro a; exact Nat.le_trans (Nat.le_max_left a x) (ih (Nat.max a x))

/-- A maximum fold returns its initial value or a member of the list. -/
theorem foldl_max_mem : ∀ (l : List Nat) (a : Nat),
    l.foldl Nat.max a = a ∨ l.foldl Nat.max a ∈ l := by
  intro l
  induction l with
  | nil => intro a; exact Or.inl rfl
  | cons x t ih =>
      intro a
      have hfold : List.foldl Nat.max a (x :: t) = List.foldl Nat.max (Nat.max a x) t := rfl
      rcases ih (Nat.max a x) with h | h
      · rcases Nat.le_total a x with hax | hxa
        · have hmax : Nat.max a x = x := Nat.max_eq_right hax
          rw [hfold, h, hmax]
          exact Or.inr (List.mem_cons_self x t)
        · have hmax : Nat.max a x = a := Nat.max_eq_left hxa
          rw [hfold, h, hmax]
          exact Or.inl rfl
      · rw [hfold]
        exact Or.inr (List.mem_cons_of_mem x h)

/-- Every member of the list is bounded by the maximum fold. -/
theorem le_foldl_max : ∀ (l : List Nat) (a x : Nat), x ∈ l → x ≤ l.foldl Nat.max a := by
  intro l
  induction l with
  | nil => intro a x hx; exact absurd hx (List.not_mem_nil x)
  | cons y t ih =>
      intro a x hx
      rcases List.mem_cons.mp hx with h | h
      · subst h
        exact Nat.le_trans (Nat.le_max_right a x) (foldl_max_le_init t (Nat.max a x))
      · exact ih (Nat.max a y) x h

/-- On a non-empty list of naturals, the maximum fold from 0 is attained. -/
theorem foldl_max_attained (l : List Nat) (h : l ≠ []) : l.foldl Nat.max 0 ∈ l := by
  rcases foldl_max_mem l 0 with h0 | h0
  · cases l with
    | nil => exact absurd rfl h
    | cons y t =>
        have hy : y ≤ (y :: t).foldl Nat.max 0 :=
          le_foldl_max (y :: t) 0 y (List.mem_cons_self y t)
        rw [h0] at hy
        have : y = 0 := Nat.le_zero.mp hy
        rw [h0, ← this]
        exact List.mem_cons_self y t
  · exact h0

/-- Reading a file with `readsOk` returns exactly its `readContent`. -/
theorem readsOk_spec {readF : String → Except String String} {root f : String}
    (h : readsOk readF root f = true) :
    readF (fullPath root f) = Except.ok (readContent readF root f) := by
  unfold readsOk at h
  unfold readContent
  cases hr : readF (fullPath root f) with
  | ok c => rfl
  | error e =>
      rw [hr] at h
      exact absurd h (by simp)

/-- The exact-rational form of the Python float test `count >= max_count * 0.3`. -/
theorem threshold_iff (M c : Nat) :
    3 * M ≤ 10 * c ↔ (3 : ℚ)/10 * (M : ℚ) ≤ (c : ℚ) := by
  rw [div_mul_eq_mul_div, div_le_iff₀ (by norm_num : (0:ℚ) < 10)]
  constructor
  · intro h
    have h2 : ((3 * M : ℕ) : ℚ) ≤ ((10 * c : ℕ) : ℚ) := by exact_mod_cast h
    push_cast at h2
    linarith
  · intro h
    have h2 : (3 : ℚ) * (M : ℚ) ≤ 10 * (c : ℚ) := by linarith
    exact_mod_cast h2

/-- C1 (counterexample): in a scan containing the source-directory file
`lib/util.py` and the top-level entry-point-named file `main.py`, the ranker
places `main.py` — an entry-point name NOT under a source directory — before
`lib/util.py`, a source-directory file of the same extension; the claim
instead puts such a file in the third tier, after every source-directory
file. -/
theorem c1_counterexample :
    baseName "main.py" ∈ patternsFor ".py"
    ∧ srcLike (fullPath "repo" "main.py") = false
    ∧ srcLike (fullPath "repo" "lib/util.py") = true
    ∧ rankForExt "repo" (all_files "repo" ["lib/util.py", "main.py"]) ".py"
        = ["main.py", "lib/util.py"] := by
  refine ⟨by decide, by decide, by decide, by decide⟩

/-- C1 (amended): for a duplicate-free discovery list, the ranker orders each
primary extension's files in four segments — source-directory entry points
(most recently matched first), then entry-point-named files not under a source
directory, then the remaining source-directory files, then everything else —
and truncates to the first 5. -/
theorem c1_rank_four_segments (root ext : String) (allF : List String)
    (h : allF.Nodup) :
    rankForExt root allF ext =
      (tierA root allF ext ++ tierB root allF ext ++ tierC root allF ext ++
        tierD root allF ext).take 5 := by
  have h1 := tier1_eq root allF ext
  have h2 := laterTier_eq
    (fun f => extInPath root ext f && srcLike (fullPath root f)) allF h
    (tier1 root allF ext)
  have h3 := laterTier_eq (fun f => extInPath root ext f) allF h
    (laterTier (fun f => extInPath root ext f && srcLike (fullPath root f))
      (tier1 root allF ext) allF)
  show (laterTier (fun f => extInPath root ext f)
      (laterTier (fun f => extInPath root ext f && srcLike (fullPath root f))
        (tier1 root allF ext) allF) allF).take 5 = _
  rw [h3, h2, h1]
  show ((((tierA root allF ext ++ tierB root allF ext) ++ tierC root allF ext) ++
    tierD root allF ext).take 5) = _
  simp [List.append_assoc]

/-- Witness for C1 at the counterexample scan. -/
theorem c1_rank_four_segments_witness :
    (["lib/util.py", "main.py"] : List String).Nodup ∧
    rankForExt "repo" ["lib/util.py", "main.py"] ".py" =
      (tierA "repo" ["lib/util.py", "main.py"] ".py" ++
        tierB "repo" ["lib/util.py", "main.py"] ".py" ++
        tierC "repo" ["lib/util.py", "main.py"] ".py" ++
        tierD "repo" ["lib/util.py", "main.py"] ".py").take 5 :=
  ⟨by decide, c1_rank_four_segments "repo" ".py" ["lib/util.py", "main.py"] (by decide)⟩

/-- C2: an extension is selected as primary exactly when its file count is at
least 0.3 times the maximum per-extension count; with 10 `.py` and 4 `.go`
files both are selected, with 10 `.py` and 2 `.go` files only `.py` is. -/
theorem c2_threshold_selection :
    (∀ (root : String) (files : List String) (ext : String),
      ext ∈ primary_languages root files ↔
        ∃ c : Nat, (ext, c) ∈ language_counts root files ∧
          (3 : ℚ)/10 * (maxCount root files : ℚ) ≤ (c : ℚ))
    ∧ primary_languages "r" ["f0.py", "f1.py", "f2.py", "f3.py", "f4.py",
        "f5.py", "f6.py", "f7.py", "f8.py", "f9.py",
        "g0.go", "g1.go", "g2.go", "g3.go"] = [".py", ".go"]
    ∧ primary_languages "r" ["f0.py", "f1.py", "f2.py", "f3.py", "f4.py",
        "f5.py", "f6.py", "f7.py", "f8.py", "f9.py",
        "g0.go", "g1.go"] = [".py"] := by
  refine ⟨?_, by decide, by decide⟩
  intro root files ext
  unfold primary_languages
  rw [List.mem_map]
  constructor
  · rintro ⟨⟨pe, pc⟩, hp, hpe⟩
    rw [List.mem_filter] at hp
    have hpe' : pe = ext := hpe
    subst hpe'
    refine ⟨pc, hp.1, ?_⟩
    have hd := hp.2
    simp only [decide_eq_true_eq] at hd
    exact (threshold_iff _ _).mp hd
  · rintro ⟨c, hc, hq⟩
    refine ⟨(ext, c), ?_, rfl⟩
    rw [List.mem_filter]
    refine ⟨hc, ?_⟩
    simp only [decide_eq_true_eq]
    exact (threshold_iff _ _).mpr hq

/-- Witness for C2: `.go` is selected in the 10-and-4 scan. -/
theorem c2_witness :
    ".go" ∈ primary_languages "r" ["f0.py", "f1.py", "f2.py", "f3.py", "f4.py",
      "f5.py", "f6.py", "f7.py", "f8.py", "f9.py",
      "g0.go", "g1.go", "g2.go", "g3.go"] :=
  (c2_threshold_selection.1 "r" ["f0.py", "f1.py", "f2.py", "f3.py", "f4.py",
      "f5.py", "f6.py", "f7.py", "f8.py", "f9.py",
      "g0.go", "g1.go", "g2.go", "g3.go"] ".go").mpr
    ⟨4, by decide, by
      have hm : maxCount "r" ["f0.py", "f1.py", "f2.py", "f3.py", "f4.py",
          "f5.py", "f6.py", "f7.py", "f8.py", "f9.py",
          "g0.go", "g1.go", "g2.go", "g3.go"] = 10 := by decide
      rw [hm]
      norm_num⟩

/-- C3: the entry point can never exit with code 0 — `main` passes the keyword
argument `model` to `generate_readme`, whose signature does not accept it, so
every run (whatever the configuration, backend, file system or flags) raises
and exits 1 after printing an error line. -/
theorem c3_main_never_exits_zero (env : ConfigEnv) (backend : ChatRequest → String)
    (readF : String → Except String String) (files : List String) (args : Args) :
    (pyMain env backend readF files args).1 = 1 ∧
    ∃ m, (pyMain env backend readF files args).2 = ["Error: " ++ m] := by
  cases hc : constructGenerator env with
  | error e =>
      exact ⟨by simp [pyMain, hc], ⟨errMsg e, by simp [pyMain, hc]⟩⟩
  | ok g =>
      have hcall : call_generate_readme backend g readF files args =
          Except.error (PyError.typeError
            ("generate_readme() got an unexpected keyword argument " ++
              sq ++ "model" ++ sq)) := rfl
      exact ⟨by simp [pyMain, hc, hcall],
        ⟨"generate_readme() got an unexpected keyword argument " ++ sq ++ "model" ++ sq,
          by simp [pyMain, hc, hcall, errMsg]⟩⟩

/-- C4: files under an `egg-info`-suffixed directory are NOT excluded — the
ignore fragment is the literal string `*.egg-info`, which never occurs in such
a path, so `pkg.egg-info/b.py` survives the filter and is scanned, counted and
ranked. -/
theorem c4_egg_info_not_ignored :
    analyze_directory (fun _ => Except.ok "") "repo" ["a.py", "pkg.egg-info/b.py"] =
      Except.ok [(".py", ["# File: a.py\n", "# File: pkg.egg-info/b.py\n"])]
    ∧ substrOf "egg-info" (fullPath "repo" "pkg.egg-info/b.py") = true
    ∧ isIgnored (fullPath "repo" "pkg.egg-info/b.py") = false := by
  refine ⟨by rfl, by decide, by decide⟩

/-- C5: every per-extension group returned by `analyze_directory` has at most
5 entries, however many matching files exist under the root. -/
theorem c5_at_most_five (readF : String → Except String String) (root : String)
    (files : List String) (m : List (String × List String)) (ext : String)
    (cs : List String) (h : analyze_directory readF root files = Except.ok m)
    (hm : (ext, cs) ∈ m) : cs.length ≤ 5 := by
  obtain ⟨-, -, hcs⟩ := analyze_ok_inv h hm
  have hlen : (rankForExt root (all_files root files) ext).length ≤ 5 :=
    List.length_take_le 5 _
  rw [hcs, (collect_eq readF root (rankForExt root (all_files root files) ext)).1,
    List.length_map]
  exact le_trans (List.length_filter_le _ _) hlen

/-- Witness for C5: a scan with six `.py` files keeps five entries. -/
theorem c5_witness :
    (["# File: b0.py\n", "# File: b1.py\n", "# File: b2.py\n", "# File: b3.py\n",
      "# File: b4.py\n"] : List String).length ≤ 5 :=
  c5_at_most_five (fun _ => Except.ok "") "r"
    ["b0.py", "b1.py", "b2.py", "b3.py", "b4.py", "b5.py"]
    [(".py", ["# File: b0.py\n", "# File: b1.py\n", "# File: b2.py\n",
      "# File: b3.py\n", "# File: b4.py\n"])]
    ".py"
    ["# File: b0.py\n", "# File: b1.py\n", "# File: b2.py\n", "# File: b3.py\n",
      "# File: b4.py\n"]
    (by rfl) (List.mem_singleton.mpr rfl)

/-- C6: the scan raises the "no recognized source" error exactly when no file
of any catalog extension survives the ignore filter; whenever one such file
exists, the primary selection is non-empty and analysis succeeds. -/
theorem c6_no_source_error_iff (readF : String → Except String String)
    (root : String) (files : List String) :
    (analyze_directory readF root files =
        Except.error (PyError.valueError
          "No recognized source code files found in the repository")
      ↔ ∀ ext ∈ catalogExts, validFilesFor root files ext = [])
    ∧ ((∃ ext ∈ catalogExts, validFilesFor root files ext ≠ []) →
        primary_languages root files ≠ [] ∧
        ∃ m, analyze_directory readF root files = Except.ok m) := by
  have hempty : (language_counts root files).isEmpty = true ↔
      ∀ ext ∈ catalogExts, validFilesFor root files ext = [] := by
    rw [List.isEmpty_iff]
    unfold language_counts
    rw [List.filter_eq_nil_iff]
    constructor
    · intro hall ext hext
      have hp := hall (ext, (validFilesFor root files ext).length)
        (List.mem_map_of_mem _ hext)
      simp only [bne_iff_ne, ne_eq, not_not] at hp
      exact List.length_eq_zero.mp hp
    · intro hall p hp
      obtain ⟨ext, hext, hpe⟩ := List.mem_map.mp hp
      simp only [bne_iff_ne, ne_eq, not_not]
      rw [← hpe]
      exact List.length_eq_zero.mpr (hall ext hext)
  constructor
  · constructor
    · intro herr
      by_cases hlc : (language_counts root files).isEmpty
      · exact hempty.mp hlc
      · rw [analyze_directory, if_neg hlc] at herr
        exact absurd herr (by simp)
    · intro hall
      rw [analyze_directory, if_pos (hempty.mpr hall)]
  · rintro ⟨ext, hext, hne⟩
    have hmemlc : (ext, (validFilesFor root files ext).length) ∈
        language_counts root files := by
      unfold language_counts
      rw [List.mem_filter]
      refine ⟨List.mem_map_of_mem _ hext, ?_⟩
      simp only [bne_iff_ne, ne_eq]
      exact fun h0 => hne (List.length_eq_zero.mp h0)
    have hlcne : language_counts root files ≠ [] := List.ne_nil_of_mem hmemlc
    have hmapne : (language_counts root files).map (fun p => p.2) ≠ [] := by
      simpa using hlcne
    have hattain : maxCount root files ∈
        (language_counts root files).map (fun p => p.2) :=
      foldl_max_attained _ hmapne
    obtain ⟨p, hp, hp2⟩ := List.mem_map.mp hattain
    have hpass : p ∈ (language_counts root files).filter
        (fun p => decide (3 * maxCount root files ≤ 10 * p.2)) := by
      rw [List.mem_filter]
      refine ⟨hp, ?_⟩
      simp only [decide_eq_true_eq]
      rw [hp2]
      omega
    have hprim : primary_languages root files ≠ [] :=
      List.ne_nil_of_mem (List.mem_map_of_mem _ hpass)
    have hlcE : ¬ (language_counts root files).isEmpty = true := by
      simpa [List.isEmpty_iff] using hlcne
    exact ⟨hprim, ⟨_, by rw [analyze_directory, if_neg hlcE]⟩⟩

/-- Witness for C6: a one-file scan selects a primary language and succeeds. -/
theorem c6_witness :
    primary_languages "r" ["a.py"] ≠ [] ∧
    ∃ m, analyze_directory (fun _ => Except.ok "") "r" ["a.py"] = Except.ok m :=
  (c6_no_source_error_iff (fun _ => Except.ok "") "r" ["a.py"]).2
    ⟨".py", by decide, by decide⟩

/-- C7: on a successful analysis, `generate_readme` calls the backend with
temperature 0.7 and a token ceiling of 1000 (brief) or 2000 (detailed), and
returns the backend's text with the attribution footer appended verbatim. -/
theorem c7_backend_call (backend : ChatRequest → String) (g : Generator)
    (readF : String → Except String String) (root : String) (files : List String)
    (verbose : Bool) (fc : List (String × List String))
    (h : analyze_directory readF root files = Except.ok fc) :
    ∃ req : ChatRequest,
      req.temperature = 7/10 ∧
      req.max_tokens = (if verbose then 2000 else 1000) ∧
      generate_readme backend g readF root files verbose =
        Except.ok (backend req ++ footer) := by
  refine ⟨{ model := g.model,
            systemMsg := systemMessage (detect_project_type fc),
            userMsg := buildPrompt (detect_project_type fc) fc verbose,
            temperature := 7/10,
            max_tokens := if verbose then 2000 else 1000 }, rfl, rfl, ?_⟩
  simp [generate_readme, h]

/-- Witness for C7 at a concrete one-file repository in brief mode. -/
theorem c7_witness :
    ∃ req : ChatRequest,
      req.temperature = 7/10 ∧
      req.max_tokens = 1000 ∧
      generate_readme (fun _ => "README") { api_key := "k", model := "m" }
        (fun _ => Except.ok "print") "r" ["src/main.py"] false =
        Except.ok ((fun _ : ChatRequest => "README") req ++ footer) :=
  c7_backend_call (fun _ => "README") { api_key := "k", model := "m" }
    (fun _ => Except.ok "print") "r" ["src/main.py"] false
    [(".py", ["# File: src/main.py\nprint"])] (by rfl)

/-- C8: the read loop stores each readable ranked file as its full text
prefixed with a header naming its root-relative path, reports one error
message per unreadable file, omits exactly those files, and processes the
whole list. -/
theorem c8_read_errors_nonfatal (readF : String → Except String String)
    (root : String) (ranked : List String) :
    (collectContents readF root ranked).1 =
      (ranked.filter (readsOk readF root)).map
        (fun f => "# File: " ++ f ++ "\n" ++ readContent readF root f)
    ∧ (collectContents readF root ranked).2 =
      (ranked.filter (fun f => !(readsOk readF root f))).map
        (fun f => "Error reading " ++ fullPath root f ++ ": " ++ readErr readF root f) :=
  collect_eq readF root ranked

/-- A configuration environment with no `example.yaml` anywhere and no
packaged default configs. -/
def noConfigEnv : ConfigEnv :=
  { dirs := fun _ =>
      { path := "/root/.config/read-you",
        exampleExists := false,
        exampleConf := { openai := { api_key := none, model := none } },
        secretsExists := false,
        secretsParse := Except.error "" },
    packageConfigExists := false,
    packageExampleConf := { openai := { api_key := none, model := none } } }

/-- C9: when every configuration file is missing, construction raises — but
with a `NameError` (the handler at line 88-90 references the out-of-scope name
`possible_config_dirs`), not the descriptive missing-configuration error the
claim requires. -/
theorem c9_missing_config_raises_name_error :
    constructGenerator noConfigEnv =
      Except.error (PyError.nameError
        ("name " ++ sq ++ "possible_config_dirs" ++ sq ++ " is not defined")) := rfl

/-- C10 (counterexample): with the files `src/x.py` and `src/util.py.go`, the
group stored under `.py` contains the `.go` file `src/util.py.go`, whose name
does not end with `.py` — the string `.py` merely occurs inside its path. -/
theorem c10_counterexample :
    analyze_directory (fun _ => Except.ok "") "repo" ["src/x.py", "src/util.py.go"] =
      Except.ok [(".py", ["# File: src/x.py\n", "# File: src/util.py.go\n"]),
        (".go", ["# File: src/util.py.go\n"])]
    ∧ (".py".toList.isSuffixOf "src/util.py.go".toList) = false := by
  refine ⟨by rfl, by decide⟩

/-- C10 (amended): every entry stored under an extension comes from a file
whose FULL PATH contains that extension as a substring (not necessarily as
its name's suffix), successfully read and stored with its header line. -/
theorem c10_entries_from_ext_in_path (readF : String → Except String String)
    (root : String) (files : List String) (m : List (String × List String))
    (ext : String) (cs : List String)
    (h : analyze_directory readF root files = Except.ok m)
    (hm : (ext, cs) ∈ m) :
    ∀ entry ∈ cs, ∃ f c, extInPath root ext f = true ∧
      readF (fullPath root f) = Except.ok c ∧
      entry = "# File: " ++ f ++ "\n" ++ c := by
  obtain ⟨-, -, hcs⟩ := analyze_ok_inv h hm
  intro entry hentry
  rw [hcs, (collect_eq readF root (rankForExt root (all_files root files) ext)).1]
    at hentry
  obtain ⟨f, hf, hfe⟩ := List.mem_map.mp hentry
  have hfr : f ∈ rankForExt root (all_files root files) ext :=
    (List.mem_filter.mp hf).1
  have hok : readsOk readF root f = true := (List.mem_filter.mp hf).2
  exact ⟨f, readContent readF root f, mem_rankForExt hfr, readsOk_spec hok, hfe.symm⟩

/-- Witness for C10 at a concrete one-file repository. -/
theorem c10_witness :
    ∃ f c, extInPath "r" ".py" f = true ∧
      (fun _ : String => (Except.ok "print" : Except String String))
        (fullPath "r" f) = Except.ok c ∧
      "# File: src/main.py\nprint" = "# File: " ++ f ++ "\n" ++ c :=
  c10_entries_from_ext_in_path (fun _ => Except.ok "print") "r" ["src/main.py"]
    [(".py", ["# File: src/main.py\nprint"])] ".py" ["# File: src/main.py\nprint"]
    (by rfl) (List.mem_singleton.mpr rfl)
    "# File: src/main.py\nprint" (List.mem_singleton.mpr rfl)

end ReadYou
